import Mathlib

/-!
Verification of the multimodal research-agent repository.

Shallow embedding of the Python sources:
- `Processor` models `src/core/processor.py` (EnhancedGROBIDProcessor);
- `Api` models `api/main.py` (the Document-Analysis FastAPI service);
- `Colpali` models `src/core/colpali.py` (ColPaliSearcher).

Python strings are sequences of Unicode code points; we model them as
`List Char` so that every operation is structural recursion and reduces
in the kernel.  External library calls (the GROBID HTTP request, PyMuPDF
image extraction, MD5, Qdrant) are modelled as explicit outcome
parameters; everything the repository itself computes is translated
directly from the source.
-/

set_option maxRecDepth 40000

namespace Spec2Proof

/-- Model of a Python `str`: a sequence of code points. -/
abbrev Str := List Char

/-- Python `str.strip()`: remove leading and trailing whitespace. -/
def pyStrip (s : Str) : Str :=
  ((s.dropWhile Char.isWhitespace).reverse.dropWhile Char.isWhitespace).reverse

/-- Python `str.lower()` on one character (ASCII case folding suffices here). -/
def pyLowerChar (c : Char) : Char :=
  if 'A' ≤ c ∧ c ≤ 'Z' then Char.ofNat (c.toNat + 32) else c

/-- Python `str.lower()`. -/
def pyLower (s : Str) : Str := s.map pyLowerChar

/-- Python `str.startswith(p)`. -/
def pyStartsWith (s p : Str) : Bool := List.isPrefixOf p s

/-- Python `str.endswith(p)`. -/
def pyEndsWith (s p : Str) : Bool := List.isSuffixOf p s

/-- Python `sep.join(parts)`. -/
def pyJoin (sep : Str) (parts : List Str) : Str := List.intercalate sep parts

/-- Lookup in a Python dict, modelled as an insertion-ordered association list. -/
def lookupA {α β : Type} [DecidableEq α] (l : List (α × β)) (k : α) : Option β :=
  (l.find? fun p => decide (p.1 = k)).map fun p => p.2

/-- Python `d[k] = v`: replace in place when the key exists, else append. -/
def insertA {α β : Type} [DecidableEq α] (l : List (α × β)) (k : α) (v : β) :
    List (α × β) :=
  if (lookupA l k).isSome then
    l.map fun p => if p.1 = k then (k, v) else p
  else l ++ [(k, v)]

/-- Python `del d[k]`. -/
def eraseA {α β : Type} [DecidableEq α] (l : List (α × β)) (k : α) :
    List (α × β) :=
  l.filter fun p => decide (p.1 ≠ k)

namespace Processor

/-- Model of a TEI `persName` element: optional `forename` and `surname`
child texts, as consumed by `_get_authors` and `_get_references`. -/
structure PersName where
  forename : Option Str
  surname : Option Str
deriving DecidableEq, Repr

/-- Model of a TEI `author` element: optional `persName` child and the text
of `affiliation/orgName` when both of those elements are present. -/
structure XmlAuthor where
  persName : Option PersName
  orgName : Option Str
deriving DecidableEq, Repr

/-- Model of a TEI `div` element: the text of its `head` child when present,
and the texts of its `p` children in document order. -/
structure XmlDiv where
  headText : Option Str
  paragraphs : List Str
deriving DecidableEq, Repr

/-- Model of a TEI `biblStruct` element: its `author` descendants in
document order and the text of its first `title` descendant. -/
structure BiblStruct where
  authors : List XmlAuthor
  title : Option Str
deriving DecidableEq, Repr

/-- Model of the parsed GROBID XML response as consumed by the extraction
helpers: the result of each BeautifulSoup `find` / `find_all` call made by
`EnhancedGROBIDProcessor`.  `find_all` searches the whole tree, so
`authors` holds every `author` element of the document. -/
structure Soup where
  titleMain : Option Str
  titleAny : Option Str
  authors : List XmlAuthor
  abstractText : Option Str
  divs : List XmlDiv
  biblStructs : List BiblStruct
  keywordTerms : Option (List Str)
deriving DecidableEq, Repr

/-- Author record appended by `_get_authors`. -/
structure Author where
  name : Str
  affiliation : Str
deriving DecidableEq, Repr

/-- Section record appended by `_get_sections`. -/
structure DocSection where
  title : Str
  content : Str
deriving DecidableEq, Repr

/-- Translation of `_get_title`: the `title[type=main]` element, else any
`title` element, else the sentinel. -/
def get_title (soup : Soup) : Str :=
  match soup.titleMain.orElse (fun _ => soup.titleAny) with
  | some t => pyStrip t
  | none => "Title not found".toList

/-- Affiliation string for one author element: stripped `orgName` text when
`affiliation/orgName` exist, else the literal `Unknown`. -/
def affiliationOf (a : XmlAuthor) : Str :=
  match a.orgName with
  | some org => pyStrip org
  | none => "Unknown".toList

/-- Loop body of `_get_authors` for one `author` element: skip when there is
no `persName` or no `surname`; join forename and surname when both exist. -/
def authorOfXml (a : XmlAuthor) : Option Author :=
  match a.persName with
  | none => none
  | some pn =>
    match pn.forename, pn.surname with
    | some f, some l => some ⟨pyStrip f ++ [' '] ++ pyStrip l, affiliationOf a⟩
    | none, some l => some ⟨pyStrip l, affiliationOf a⟩
    | _, none => none

/-- Translation of `_get_authors`: first 10 `author` elements, filtered by
the loop body. -/
def get_authors (soup : Soup) : List Author :=
  (soup.authors.take 10).filterMap authorOfXml

/-- Translation of `_get_abstract`: strip the element text, and when it
begins (lower-cased) with `abstract` drop the first 8 characters and strip
again; sentinel when the element is absent. -/
def get_abstract (soup : Soup) : Str :=
  match soup.abstractText with
  | some raw =>
    let text := pyStrip raw
    if pyStartsWith (pyLower text) "abstract".toList then pyStrip (text.drop 8)
    else text
  | none => "Abstract not found".toList

/-- Concatenated content of one `div`: the stripped texts of its first two
paragraphs joined by a space (`_get_sections`, before truncation). -/
def divContent (d : XmlDiv) : Str :=
  pyJoin " ".toList ((d.paragraphs.take 2).map pyStrip)

/-- Loop body of `_get_sections` for one `div` element: requires a `head`
child with non-empty stripped text; truncates content over 300 characters
to 300 plus an ellipsis. -/
def sectionOfDiv (d : XmlDiv) : Option DocSection :=
  match d.headText with
  | none => none
  | some h =>
    if pyStrip h = [] then none
    else
      let content := divContent d
      let content :=
        if 300 < content.length then content.take 300 ++ "...".toList
        else content
      some ⟨pyStrip h, content⟩

/-- Translation of `_get_sections`: first 15 `div` elements, filtered by the
loop body. -/
def get_sections (soup : Soup) : List DocSection :=
  (soup.divs.take 15).filterMap sectionOfDiv

/-- Surnames collected from the first two `author` elements of a
`biblStruct` (`_get_references`). -/
def refNames (b : BiblStruct) : List Str :=
  (b.authors.take 2).filterMap fun a =>
    match a.persName with
    | none => none
    | some pn => pn.surname.map pyStrip

/-- Parts of one reference string: the comma-joined surnames when any were
found, then the quoted title when a `title` descendant exists. -/
def refParts (b : BiblStruct) : List Str :=
  (if refNames b = [] then [] else [pyJoin ", ".toList (refNames b)]) ++
  (match b.title with
   | some t => [['"'] ++ pyStrip t ++ ['"']]
   | none => [])

/-- The reference string before truncation: parts joined by a period and a
space. -/
def rawRef (b : BiblStruct) : Str := pyJoin ". ".toList (refParts b)

/-- Loop body of `_get_references` for one `biblStruct`: skip when no part
was collected; truncate over 100 characters to 100 plus an ellipsis. -/
def refOfBibl (b : BiblStruct) : Option Str :=
  if refParts b = [] then none
  else
    let ref := rawRef b
    some (if 100 < ref.length then ref.take 100 ++ "...".toList else ref)

/-- Translation of `_get_references`: first 10 `biblStruct` elements,
filtered by the loop body. -/
def get_references (soup : Soup) : List Str :=
  (soup.biblStructs.take 10).filterMap refOfBibl

/-- Translation of `_get_keywords`: stripped non-empty `term` texts under
the `keywords` element. -/
def get_keywords (soup : Soup) : List Str :=
  match soup.keywordTerms with
  | some terms => (terms.map pyStrip).filter fun k => decide (k ≠ [])
  | none => []

/-- The text half of a processing result, as returned by
`_extract_text_content` on HTTP 200. -/
structure TextResult where
  title : Str
  authors : List Author
  abstract : Str
  sections : List DocSection
  references : List Str
  keywords : List Str
deriving DecidableEq, Repr

/-- Outcome of the GROBID HTTP call (`requests.post`), which the repository
does not compute itself: either a 200 response whose body parsed into a
soup, a non-200 status (the code raises and catches locally), or a raised
request error (also caught locally). -/
inductive GrobidOutcome where
  | ok (soup : Soup)
  | httpStatus (code : Nat)
  | requestError (msg : Str)
deriving DecidableEq, Repr

/-- Translation of `_extract_text_content`: on HTTP 200 run the six
extraction helpers; on a non-200 status or a raised request error the local
handler returns empty-string title and abstract and empty lists. -/
def extract_text_content (resp : GrobidOutcome) : TextResult :=
  match resp with
  | .ok soup =>
    ⟨get_title soup, get_authors soup, get_abstract soup, get_sections soup,
      get_references soup, get_keywords soup⟩
  | .httpStatus _ => ⟨[], [], [], [], [], []⟩
  | .requestError _ => ⟨[], [], [], [], [], []⟩

/-- Figure record appended by `_extract_and_save_images`. -/
structure Figure where
  figure_id : Str
  page : Nat
  file_path : Str
deriving DecidableEq, Repr

/-- Outcome of local image extraction (PyMuPDF), which is an external
library: either the figure records it produced, or a raised error that the
local handler catches. -/
inductive ImageOutcome where
  | ok (figs : List Figure)
  | failed (msg : Str)
deriving DecidableEq, Repr

/-- The image half of a processing result. -/
structure ImageResult where
  figures : List Figure
  total_figures : Nat
deriving DecidableEq, Repr

/-- Translation of `_extract_and_save_images` at its exception boundary: a
raised error yields empty figures and a zero count. -/
def extract_and_save_images (outcome : ImageOutcome) : ImageResult :=
  match outcome with
  | .ok figs => ⟨figs, figs.length⟩
  | .failed _ => ⟨[], 0⟩

/-- The dict returned by `process_pdf`, modelled with one `Option` per key
so that an absent key is `none`.  The success path fills every field; the
exception path fills only `status`, `error`, `processing_time` and
`paper_id`. -/
structure ResultDict where
  status : Option Str
  error : Option Str
  paper_id : Option Str
  filename : Option Str
  storage_path : Option Str
  title : Option Str
  authors : Option (List Author)
  abstract : Option Str
  sections : Option (List DocSection)
  references : Option (List Str)
  keywords : Option (List Str)
  figures : Option (List Figure)
  total_figures : Option Nat
  processing_time : Option Nat
deriving DecidableEq, Repr

/-- Translation of the filename half of `_generate_paper_id`: keep
alphanumeric characters and `.`, `_`, `-`, then take the first 20. -/
def clean_filename (filename : Str) : Str :=
  (filename.filter fun c => c.isAlphanum || c ∈ ['.', '_', '-']).take 20

/-- Translation of `_generate_paper_id`.  The 12-hex-digit MD5 content hash
is an external library call, passed in as `md5hex12`. -/
def generate_paper_id (md5hex12 : List Nat → Str) (pdf_content : List Nat)
    (filename : Str) : Str :=
  clean_filename filename ++ ['_'] ++ md5hex12 pdf_content

/-- The on-disk paper store: one `data.json` record per paper id. -/
structure Store where
  cache : List (Str × ResultDict)
deriving DecidableEq, Repr

/-- Environment of one `process_pdf` call: the outcome of each external
operation the call performs.  A `some msg` in an error field means that
operation raised with that message. -/
structure PdfEnv where
  cacheReadError : Option Str
  mkdirError : Option Str
  grobid : GrobidOutcome
  images : ImageOutcome
  saveError : Option Str
  elapsed : Nat
deriving DecidableEq, Repr

/-- Result of one `process_pdf` call: the returned dict, the store after the
call, and whether the GROBID HTTP endpoint was contacted. -/
structure ProcessOutput where
  result : ResultDict
  store : Store
  grobidCalled : Bool
deriving DecidableEq, Repr

/-- The dict built by the `except` branch of `process_pdf`: status `error`,
the exception message, the elapsed time, the paper id, and nothing else. -/
def errorDict (msg : Str) (elapsed : Nat) (pid : Str) : ResultDict :=
  { status := some "error".toList, error := some msg, paper_id := some pid,
    filename := none, storage_path := none, title := none, authors := none,
    abstract := none, sections := none, references := none, keywords := none,
    figures := none, total_figures := none,
    processing_time := some elapsed }

/-- Translation of `process_pdf`: compute the paper id; on a cache hit load
the record and mark it `loaded_from_cache` (a failed cache read raises into
the outer handler); otherwise create directories, run text and image
extraction, assemble the success dict, and save it (a failed mkdir or save
also raises into the outer handler).  The outer handler returns
`errorDict`.  The GROBID endpoint is contacted exactly when the cache
missed and directory creation succeeded. -/
def process_pdf (md5hex12 : List Nat → Str) (storage_dir : Str) (env : PdfEnv)
    (store : Store) (pdf_content : List Nat) (filename : Str) : ProcessOutput :=
  let paper_id := generate_paper_id md5hex12 pdf_content filename
  match lookupA store.cache paper_id with
  | some data =>
    match env.cacheReadError with
    | some msg => ⟨errorDict msg env.elapsed paper_id, store, false⟩
    | none => ⟨{ data with status := some "loaded_from_cache".toList }, store, false⟩
  | none =>
    match env.mkdirError with
    | some msg => ⟨errorDict msg env.elapsed paper_id, store, false⟩
    | none =>
      let text := extract_text_content env.grobid
      let imgs := extract_and_save_images env.images
      let result : ResultDict :=
        { status := some "success".toList,
          error := none,
          paper_id := some paper_id,
          filename := some filename,
          storage_path := some (storage_dir ++ ['/'] ++ paper_id),
          title := some text.title,
          authors := some text.authors,
          abstract := some text.abstract,
          sections := some text.sections,
          references := some text.references,
          keywords := some text.keywords,
          figures := some imgs.figures,
          total_figures := some imgs.total_figures,
          processing_time := some env.elapsed }
      match env.saveError with
      | some msg => ⟨errorDict msg env.elapsed paper_id, store, true⟩
      | none => ⟨result, ⟨insertA store.cache paper_id result⟩, true⟩

end Processor

namespace Api

/-- DocumentStatus enumeration from `src/schemas.py`. -/
inductive DocumentStatus where
  | processing
  | completed
  | failed
deriving DecidableEq, Repr

/-- The dict stored in `documents[doc_id]` by `process_document`. -/
structure DocData where
  document_id : Str
  filename : Str
  upload_time : Str
  file_size : Nat
  processing_result : Processor.ResultDict
deriving DecidableEq, Repr

/-- In-memory state of the service: the module-level `documents` and
`processing_status` dicts of `api/main.py`. -/
structure ApiState where
  documents : List (Str × DocData)
  processing_status : List (Str × DocumentStatus)
deriving DecidableEq, Repr

/-- State at process start: both dicts empty. -/
def emptyState : ApiState := ⟨[], []⟩

/-- An uploaded file as the handler sees it: the filename, the size
metadata (`None` when the client did not report one), and the bytes that
`file.read()` yields. -/
structure UploadFile where
  filename : Str
  size : Option Nat
  content : List Nat
deriving DecidableEq, Repr

/-- DocumentUploadResponse from `src/schemas.py`. -/
structure DocumentUploadResponse where
  document_id : Str
  filename : Str
  status : DocumentStatus
  message : Str
deriving DecidableEq, Repr

/-- A scheduled background task: the arguments `upload_pdf` passes to
`process_document`. -/
structure BgTask where
  doc_id : Str
  pdf_content : List Nat
  filename : Str
deriving DecidableEq, Repr

/-- An HTTPException as raised by the handlers. -/
structure HttpError where
  status_code : Nat
  detail : Str
deriving DecidableEq, Repr

/-- Outcome of one handler call: a successful response body, or a raised
HTTPException. -/
inductive HttpResult (α : Type) where
  | ok (val : α)
  | err (e : HttpError)
deriving DecidableEq, Repr

/-- Everything one `upload_pdf` call produces: the HTTP outcome, the state
after the call, and the background tasks it scheduled. -/
structure UploadOutput where
  response : HttpResult DocumentUploadResponse
  state : ApiState
  tasks : List BgTask
deriving DecidableEq, Repr

/-- Translation of the size guard `file.size and file.size > max`: Python
truthiness makes the guard pass (no rejection) when the size metadata is
absent or zero. -/
def sizeExceeds (size : Option Nat) (max_file_size : Nat) : Bool :=
  match size with
  | none => false
  | some s => decide (s ≠ 0) && decide (max_file_size < s)

/-- Translation of `upload_pdf`.  `new_doc_id` stands for the generated
`str(uuid.uuid4())` and `readError` for a raised `file.read()`.  Note the
source records the PROCESSING status entry before reading the file, so a
read failure leaves that entry behind. -/
def upload_pdf (max_file_size : Nat) (new_doc_id : Str) (readError : Bool)
    (st : ApiState) (file : UploadFile) : UploadOutput :=
  if pyEndsWith file.filename ".pdf".toList = false then
    ⟨.err ⟨400, "Only PDF files are supported".toList⟩, st, []⟩
  else if sizeExceeds file.size max_file_size then
    ⟨.err ⟨400, "File too large. Max size: ".toList ++
      (toString (max_file_size / 1024 / 1024)).toList ++ "MB".toList⟩, st, []⟩
  else
    let st1 : ApiState :=
      { st with processing_status :=
          insertA st.processing_status new_doc_id DocumentStatus.processing }
    if readError then ⟨.err ⟨400, "Error reading PDF file".toList⟩, st1, []⟩
    else
      ⟨.ok ⟨new_doc_id, file.filename, DocumentStatus.processing,
          "Document uploaded successfully. Processing in background.".toList⟩,
        st1, [⟨new_doc_id, file.content, file.filename⟩]⟩

/-- The error-shaped placeholder stored by the `except` branch of
`process_document` (it has empty title/authors/abstract/sections/references
keys but no keywords, figures, or timing keys). -/
def errorPlaceholder (msg : Str) : Processor.ResultDict :=
  { status := some "error".toList, error := some msg,
    title := some [], authors := some [], abstract := some [],
    sections := some [], references := some [],
    paper_id := none, filename := none, storage_path := none,
    keywords := none, figures := none, total_figures := none,
    processing_time := none }

/-- Outcome of the `process_research_paper` call inside the background
task: the dict it returned, or the message of an exception it raised. -/
inductive TaskOutcome where
  | returned (result : Processor.ResultDict)
  | raised (msg : Str)
deriving DecidableEq, Repr

/-- Translation of the background task `process_document`.  `upload_time`
stands for `datetime.now().isoformat()`.  The document is COMPLETED exactly
when the returned dict carries status `success`; any other status,
including `loaded_from_cache`, is recorded FAILED. -/
def process_document (st : ApiState) (doc_id : Str) (pdf_content : List Nat)
    (filename : Str) (upload_time : Str) (outcome : TaskOutcome) : ApiState :=
  match outcome with
  | .returned result =>
    let docs := insertA st.documents doc_id
      ⟨doc_id, filename, upload_time, pdf_content.length, result⟩
    let status :=
      if result.status = some "success".toList then DocumentStatus.completed
      else DocumentStatus.failed
    ⟨docs, insertA st.processing_status doc_id status⟩
  | .raised msg =>
    ⟨insertA st.documents doc_id
        ⟨doc_id, filename, upload_time, pdf_content.length, errorPlaceholder msg⟩,
      insertA st.processing_status doc_id DocumentStatus.failed⟩

/-- The response dict of `get_document_status`, one `Option` per key that is
only present in some branches. -/
structure StatusResponse where
  document_id : Str
  status : DocumentStatus
  filename : Option Str
  upload_time : Option Str
  file_size : Option Nat
  result : Option Processor.ResultDict
  error : Option Str
deriving DecidableEq, Repr

/-- Translation of `get_document_status`: 404 when the id has no status
entry; the document fields are added only when the documents dict has the
id, and result or error only for COMPLETED or FAILED. -/
def get_document_status (st : ApiState) (doc_id : Str) :
    HttpResult StatusResponse :=
  match lookupA st.processing_status doc_id with
  | none => .err ⟨404, "Document not found".toList⟩
  | some status =>
    match lookupA st.documents doc_id with
    | none => .ok ⟨doc_id, status, none, none, none, none, none⟩
    | some doc_data =>
      let base : StatusResponse :=
        ⟨doc_id, status, some doc_data.filename, some doc_data.upload_time,
          some doc_data.file_size, none, none⟩
      if status = DocumentStatus.completed then
        .ok { base with result := some doc_data.processing_result }
      else if status = DocumentStatus.failed then
        let errMsg := doc_data.processing_result.error.getD "Processing failed".toList
        .ok { base with error := some errMsg }
      else .ok base

/-- One entry of the `list_documents` response. -/
structure DocInfo where
  document_id : Str
  filename : Str
  status : DocumentStatus
  upload_time : Str
  file_size : Nat
  title : Option Str
  authors_count : Option Nat
  sections_count : Option Nat
  processing_time : Option Nat
deriving DecidableEq, Repr

/-- Loop body of `list_documents` for one documents entry: status defaults
to FAILED when the status dict lacks the id; the title and count keys are
added only for COMPLETED documents whose result carries status `success`. -/
def docInfoOf (st : ApiState) (doc_id : Str) (doc_data : DocData) : DocInfo :=
  let status := (lookupA st.processing_status doc_id).getD DocumentStatus.failed
  let base : DocInfo :=
    ⟨doc_id, doc_data.filename, status, doc_data.upload_time,
      doc_data.file_size, none, none, none, none⟩
  if status = DocumentStatus.completed ∧
      doc_data.processing_result.status = some "success".toList then
    { base with
      title := some (doc_data.processing_result.title.getD []),
      authors_count := some (doc_data.processing_result.authors.getD []).length,
      sections_count := some (doc_data.processing_result.sections.getD []).length,
      processing_time := some (doc_data.processing_result.processing_time.getD 0) }
  else base

/-- Lexicographic code-point comparison, as Python compares `str` values. -/
def strLt : Str → Str → Bool
  | [], [] => false
  | [], _ :: _ => true
  | _ :: _, [] => false
  | a :: s, b :: t => if a < b then true else if b < a then false else strLt s t

/-- Insert into a descending-by-key list, after every element whose key is
greater than or equal (so that Python sort stability is preserved). -/
def insertDescBy {α : Type} (key : α → Str) (a : α) : List α → List α
  | [] => [a]
  | b :: t =>
    if strLt (key b) (key a) then a :: b :: t else b :: insertDescBy key a t

/-- Model of `sorted(l, key =  upload time, reverse = True)`: a stable sort
descending by key. -/
def sortDescBy {α : Type} (key : α → Str) (l : List α) : List α :=
  l.foldl (fun acc a => insertDescBy key a acc) []

/-- Translation of `list_documents`: one `DocInfo` per documents entry,
sorted newest upload first. -/
def list_documents (st : ApiState) : List DocInfo :=
  sortDescBy (fun d => d.upload_time)
    (st.documents.map fun p => docInfoOf st p.1 p.2)

/-- Translation of `delete_document`: 404 when the documents dict lacks the
id; otherwise remove it from both dicts and return the message (character
39 is the apostrophe around the filename). -/
def delete_document (st : ApiState) (doc_id : Str) :
    HttpResult (Str × ApiState) :=
  match lookupA st.documents doc_id with
  | none => .err ⟨404, "Document not found".toList⟩
  | some doc_data =>
    .ok ("Document ".toList ++ [Char.ofNat 39] ++ doc_data.filename ++
        [Char.ofNat 39] ++ " deleted successfully".toList,
      ⟨eraseA st.documents doc_id, eraseA st.processing_status doc_id⟩)

/-- The aggregate counts of the `health_check` response (the constant
`healthy` status and the wall-clock timestamp are omitted). -/
structure HealthResponse where
  total_documents : Nat
  processing_documents : Nat
  completed_documents : Nat
  failed_documents : Nat
deriving DecidableEq, Repr

/-- Translation of `health_check`: the total counts the documents dict,
while the three per-status counts scan the processing_status dict values. -/
def health_check (st : ApiState) : HealthResponse :=
  ⟨st.documents.length,
    (st.processing_status.filter fun p =>
      decide (p.2 = DocumentStatus.processing)).length,
    (st.processing_status.filter fun p =>
      decide (p.2 = DocumentStatus.completed)).length,
    (st.processing_status.filter fun p =>
      decide (p.2 = DocumentStatus.failed)).length⟩

end Api

namespace Colpali

/-- One Qdrant point built by `index_pdf`: its id string and metadata
payload.  The multi-vector embedding attached to the point comes from the
external ColPali model and plays no role in the bookkeeping verified
here. -/
structure QdrantPoint where
  id : Str
  paper_id : Str
  page_number : Nat
  pdf_path : Str
  total_pages : Nat
  source : Str
deriving DecidableEq, Repr

/-- Contents of the Qdrant collection. -/
structure Collection where
  points : List QdrantPoint
deriving DecidableEq, Repr

/-- The point built for page `page_idx` of a document with `numPages`
pages: id `{paper_id}_page_{page_idx}` and the payload of `index_pdf`. -/
def pointFor (paper_id pdf_path : Str) (numPages page_idx : Nat) : QdrantPoint :=
  ⟨paper_id ++ "_page_".toList ++ (toString page_idx).toList,
    paper_id, page_idx, pdf_path, numPages, "research_paper".toList⟩

/-- All points `index_pdf` builds for a `numPages`-page PDF.  The source
enumerates pages in batches of `batch_size` with `page_idx = i + j`, which
visits 0, 1, ..., numPages - 1 in order; this is that flattened
enumeration. -/
def indexPoints (paper_id pdf_path : Str) (numPages : Nat) : List QdrantPoint :=
  (List.range numPages).map fun page_idx =>
    pointFor paper_id pdf_path numPages page_idx

/-- Qdrant upsert semantics: an incoming point overwrites any stored point
with the same id; other stored points are kept. -/
def upsert (coll : Collection) (pts : List QdrantPoint) : Collection :=
  ⟨(coll.points.filter fun p => !(pts.any fun q => decide (q.id = p.id))) ++ pts⟩

/-- Translation of `index_pdf` once the model is loaded: rasterize the
`numPages` pages, build one point per page, upsert them in one call, and
return the paper id. -/
def index_pdf (coll : Collection) (pdf_path paper_id : Str) (numPages : Nat) :
    Collection × Str :=
  (upsert coll (indexPoints paper_id pdf_path numPages), paper_id)

/-- The summary dict returned by `get_document_info`. -/
structure DocumentInfo where
  paper_id : Str
  pdf_path : Str
  num_pages : Nat
  indexed : Bool
deriving DecidableEq, Repr

/-- Translation of `get_document_info`: scroll with an exact-match filter on
`paper_id` and limit 1, rebuilding the summary from the payload of the
returned point, or `None` when no point matches. -/
def get_document_info (coll : Collection) (paper_id : Str) :
    Option DocumentInfo :=
  match coll.points.find? (fun p => decide (p.paper_id = paper_id)) with
  | some p => some ⟨paper_id, p.pdf_path, p.total_pages, true⟩
  | none => none

end Colpali

/-! Concrete data used to instantiate the theorems below. -/

/-- A stand-in for the external MD5 digest in concrete runs; the repository
relies only on the digest being a deterministic function of the bytes. -/
def exMd5 (content : List Nat) : Str :=
  "0123456789ab".toList ++ (toString (content.foldl (fun a b => a + b) 0)).toList

/-- A soup with every element absent or empty. -/
def emptySoup : Processor.Soup := ⟨none, none, [], none, [], [], none⟩

/-- A success-shaped processing result, as the background task receives one
from a successful extraction. -/
def successDict : Processor.ResultDict :=
  { status := some "success".toList, error := none,
    paper_id := some "a.pdf_0123456789ab0".toList,
    filename := some "a.pdf".toList,
    storage_path := some "data/papers/a.pdf_0123456789ab0".toList,
    title := some "T".toList, authors := some [], abstract := some "A".toList,
    sections := some [], references := some [], keywords := some [],
    figures := some [], total_figures := some 0, processing_time := some 3 }

/-- Environment of a run whose save of `data.json` raises an I/O error. -/
def envSaveFail : Processor.PdfEnv :=
  ⟨none, none, .ok emptySoup, .ok [], some "disk full".toList, 7⟩

/-- Environment of a run whose GROBID call raises a network error and whose
local I/O all succeeds. -/
def envNetFail : Processor.PdfEnv :=
  ⟨none, none, .requestError "connection timed out".toList, .ok [], none, 7⟩

/-- Environment of an error-free first run (GROBID returns an empty
document). -/
def envClean : Processor.PdfEnv := ⟨none, none, .ok emptySoup, .ok [], none, 5⟩

/-- Environment of a second run: its GROBID and save outcomes are failures,
which a cache hit never touches. -/
def envSecond : Processor.PdfEnv :=
  ⟨none, none, .requestError "down".toList, .failed "x".toList,
    some "read-only".toList, 9⟩

/-- A div whose two paragraphs join to 301 characters of content. -/
def wDiv : Processor.XmlDiv :=
  ⟨some "Introduction".toList, [List.replicate 301 'x']⟩

/-- The section record that `wDiv` produces. -/
def wSec : Processor.DocSection :=
  ⟨"Introduction".toList, List.replicate 300 'x' ++ "...".toList⟩

/-- A biblStruct whose reference string is 122 characters long. -/
def wBibl : Processor.BiblStruct := ⟨[], some (List.replicate 120 'y')⟩

/-- The truncated reference string that `wBibl` produces. -/
def wRef : Str := (Processor.rawRef wBibl).take 100 ++ "...".toList

/-- A soup holding `wDiv` and `wBibl`. -/
def wSoup : Processor.Soup := ⟨none, none, [], none, [wDiv], [wBibl], none⟩

/-- A soup whose abstract begins with the word ABSTRACT followed by a
colon, a space-separated tail, and surrounding whitespace. -/
def soupAbs : Processor.Soup :=
  ⟨none, none, [], some "  ABSTRACT: Results ".toList, [], [], none⟩

/-- A soup whose abstract text has a whitespace character right after the
8-character prefix. -/
def soupAbsSpace : Processor.Soup :=
  ⟨none, none, [], some "Abstract This paper".toList, [], [], none⟩

/-- An upload file with a pdf name and small reported size. -/
def filePdfSmall : Api.UploadFile := ⟨"a.pdf".toList, some 10, [1]⟩

/-- An in-memory API state with one finished document and one accepted
upload whose background task has not run. -/
def stHalf : Api.ApiState :=
  ⟨[("da".toList, ⟨"da".toList, "a.pdf".toList, "2026-01-01T00:00:01".toList,
      1, successDict⟩)],
    [("da".toList, Api.DocumentStatus.completed),
      ("db".toList, Api.DocumentStatus.processing)]⟩

/-- The four-document run behind the health-aggregation claim: four
accepted uploads, two background tasks that returned success dicts, one
that raised, and one still in flight. -/
def c2state : Api.ApiState :=
  let m := 52428800
  let st1 := (Api.upload_pdf m "d1".toList false Api.emptyState
    ⟨"a.pdf".toList, some 10, [1]⟩).state
  let st2 := (Api.upload_pdf m "d2".toList false st1
    ⟨"b.pdf".toList, some 10, [2]⟩).state
  let st3 := (Api.upload_pdf m "d3".toList false st2
    ⟨"c.pdf".toList, some 10, [3]⟩).state
  let st4 := (Api.upload_pdf m "d4".toList false st3
    ⟨"d.pdf".toList, some 10, [4]⟩).state
  let st5 := Api.process_document st4 "d1".toList [1] "a.pdf".toList
    "2026-01-01T00:00:01".toList (.returned successDict)
  let st6 := Api.process_document st5 "d2".toList [2] "b.pdf".toList
    "2026-01-01T00:00:02".toList (.returned successDict)
  Api.process_document st6 "d3".toList [3] "c.pdf".toList
    "2026-01-01T00:00:03".toList (.raised "GROBID HTTP 500".toList)

/-- A store already holding a record under the paper id of bytes `[1]` with
filename `a.pdf`, as left behind by an earlier successful run. -/
def storeWithA : Processor.Store :=
  ⟨[(Processor.generate_paper_id exMd5 [1] "a.pdf".toList, successDict)]⟩

/-- A collection holding one page-point of an unrelated paper. -/
def collOther : Colpali.Collection :=
  ⟨[⟨"other_page_0".toList, "other".toList, 0, "data/other.pdf".toList, 1,
      "research_paper".toList⟩]⟩

/-! Helper lemmas about the dict model. -/

theorem lookupA_append_of_eq_none {α β : Type} [DecidableEq α]
    (l : List (α × β)) (k : α) (v : β) (h : lookupA l k = none) :
    lookupA (l ++ [(k, v)]) k = some v := by
  induction l with
  | nil => simp [lookupA]
  | cons p t ih =>
    by_cases hk : p.1 = k
    · exfalso
      simp [lookupA, List.find?_cons, hk] at h
    · simp only [lookupA, List.cons_append, List.find?_cons, hk, decide_eq_false,
        not_false_iff] at h ⊢
      exact ih (by simpa [lookupA] using h)

theorem lookupA_insertA_self {α β : Type} [DecidableEq α]
    (l : List (α × β)) (k : α) (v : β) (h : lookupA l k = none) :
    lookupA (insertA l k v) k = some v := by
  rw [insertA, h]
  simp only [Option.isSome_none, Bool.false_eq_true, if_false]
  exact lookupA_append_of_eq_none l k v h

theorem find?_map_replace {α β : Type} [DecidableEq α]
    (l : List (α × β)) (k : α) (v : β)
    (h : (List.find? (fun p => decide (p.1 = k)) l).isSome) :
    List.find? (fun p => decide (p.1 = k))
      (l.map fun p => if p.1 = k then (k, v) else p) = some (k, v) := by
  induction l with
  | nil => simp at h
  | cons p t ih =>
    by_cases hk : p.1 = k
    · rw [List.map_cons, if_pos hk]
      simp [List.find?_cons]
    · rw [List.map_cons, if_neg hk]
      rw [List.find?_cons] at h ⊢
      rw [decide_eq_false hk] at h ⊢
      exact ih h

theorem lookupA_insertA {α β : Type} [DecidableEq α]
    (l : List (α × β)) (k : α) (v : β) :
    lookupA (insertA l k v) k = some v := by
  by_cases hc : lookupA l k = none
  · rw [insertA, hc]
    simp only [Option.isSome_none, Bool.false_eq_true, if_false]
    exact lookupA_append_of_eq_none l k v hc
  · have hs : (lookupA l k).isSome := Option.isSome_iff_ne_none.mpr hc
    rw [insertA, if_pos hs]
    have hf : (List.find? (fun p => decide (p.1 = k)) l).isSome := by
      rcases hfind : List.find? (fun p => decide (p.1 = k)) l with _ | w
      · exact absurd (by simp [lookupA, hfind]) hc
      · rw [hfind]
        rfl
    simp only [lookupA, find?_map_replace l k v hf, Option.map_some']

theorem mem_insertDescBy {α : Type} (key : α → Str) (a x : α) (l : List α)
    (h : x ∈ Api.insertDescBy key a l) : x = a ∨ x ∈ l := by
  induction l with
  | nil => simpa [Api.insertDescBy] using h
  | cons b t ih =>
    rw [Api.insertDescBy] at h
    by_cases hc : Api.strLt (key b) (key a)
    · rw [if_pos hc] at h
      rcases List.mem_cons.mp h with h1 | h1
      · exact Or.inl h1
      · exact Or.inr h1
    · rw [if_neg hc] at h
      rcases List.mem_cons.mp h with h1 | h1
      · exact Or.inr (List.mem_cons.mpr (Or.inl h1))
      · rcases ih h1 with h2 | h2
        · exact Or.inl h2
        · exact Or.inr (List.mem_cons.mpr (Or.inr h2))

theorem mem_foldl_insertDescBy {α : Type} (key : α → Str) (l acc : List α)
    (x : α) (h : x ∈ l.foldl (fun acc a => Api.insertDescBy key a acc) acc) :
    x ∈ l ∨ x ∈ acc := by
  induction l generalizing acc with
  | nil => exact Or.inr h
  | cons b t ih =>
    rw [List.foldl_cons] at h
    rcases ih (Api.insertDescBy key b acc) h with h1 | h1
    · exact Or.inl (List.mem_cons.mpr (Or.inr h1))
    · rcases mem_insertDescBy key b x acc h1 with h2 | h2
      · exact Or.inl (List.mem_cons.mpr (Or.inl h2))
      · exact Or.inr h2

theorem mem_sortDescBy {α : Type} (key : α → Str) (l : List α) (x : α)
    (h : x ∈ Api.sortDescBy key l) : x ∈ l := by
  rcases mem_foldl_insertDescBy key l [] x h with h1 | h1
  · exact h1
  · cases h1

theorem upload_accepted_state (m : Nat) (d : Str) (st : Api.ApiState)
    (f : Api.UploadFile) (hpdf : pyEndsWith f.filename ".pdf".toList = true)
    (hsz : Api.sizeExceeds f.size m = false) :
    (Api.upload_pdf m d false st f).state =
      ⟨st.documents, insertA st.processing_status d Api.DocumentStatus.processing⟩ := by
  have hp2 : pyEndsWith f.filename ['.', 'p', 'd', 'f'] = true := hpdf
  simp [Api.upload_pdf, hp2, hsz]

/-- Claim C5: an upload whose filename does not end in `.pdf`, or whose
reported size exceeds the configured maximum, is rejected with a 400 client
error while the in-memory state is unchanged and no background task is
scheduled — so no document id is generated or recorded anywhere. -/
theorem C5_upload_validation (m : Nat) (doc_id : Str) (re : Bool)
    (st : Api.ApiState) (f : Api.UploadFile)
    (h : pyEndsWith f.filename ".pdf".toList = false ∨
      ∃ s, f.size = some s ∧ m < s) :
    ((Api.upload_pdf m doc_id re st f).response =
        .err ⟨400, "Only PDF files are supported".toList⟩ ∨
      (Api.upload_pdf m doc_id re st f).response =
        .err ⟨400, "File too large. Max size: ".toList ++
          (toString (m / 1024 / 1024)).toList ++ "MB".toList⟩) ∧
    (Api.upload_pdf m doc_id re st f).state = st ∧
    (Api.upload_pdf m doc_id re st f).tasks = [] := by
  rcases h with h | ⟨s, hsz, hm⟩
  · have h2 : pyEndsWith f.filename ['.', 'p', 'd', 'f'] = false := h
    refine ⟨Or.inl ?_, ?_, ?_⟩ <;> simp [Api.upload_pdf, h2]
  · have hex : Api.sizeExceeds f.size m = true := by
      rw [hsz, Api.sizeExceeds]
      simp only [Bool.and_eq_true, decide_eq_true_eq]
      omega
    cases hb : pyEndsWith f.filename ".pdf".toList with
    | false =>
      have h2 : pyEndsWith f.filename ['.', 'p', 'd', 'f'] = false := hb
      refine ⟨Or.inl ?_, ?_, ?_⟩ <;> simp [Api.upload_pdf, h2]
    | true =>
      have h2 : pyEndsWith f.filename ['.', 'p', 'd', 'f'] = true := hb
      refine ⟨Or.inr ?_, ?_, ?_⟩ <;> simp [Api.upload_pdf, h2, hex]

/-- Witness for C5: a file named `notes.txt` is rejected with the
extension error, and a 60 MiB `big.pdf` upload against the default 50 MiB
limit is rejected with the size error; neither changes the state or
schedules work. -/
theorem C5_upload_validation_witness :
    ((Api.upload_pdf 52428800 "w1".toList false Api.emptyState
        ⟨"notes.txt".toList, some 10, [1]⟩).response =
        .err ⟨400, "Only PDF files are supported".toList⟩ ∨
      (Api.upload_pdf 52428800 "w1".toList false Api.emptyState
        ⟨"notes.txt".toList, some 10, [1]⟩).response =
        .err ⟨400, "File too large. Max size: ".toList ++
          (toString (52428800 / 1024 / 1024)).toList ++ "MB".toList⟩) ∧
    (Api.upload_pdf 52428800 "w1".toList false Api.emptyState
      ⟨"notes.txt".toList, some 10, [1]⟩).state = Api.emptyState ∧
    (Api.upload_pdf 52428800 "w1".toList false Api.emptyState
      ⟨"notes.txt".toList, some 10, [1]⟩).tasks = [] ∧
    ((Api.upload_pdf 52428800 "w2".toList false Api.emptyState
        ⟨"big.pdf".toList, some 62914560, [1]⟩).response =
        .err ⟨400, "Only PDF files are supported".toList⟩ ∨
      (Api.upload_pdf 52428800 "w2".toList false Api.emptyState
        ⟨"big.pdf".toList, some 62914560, [1]⟩).response =
        .err ⟨400, "File too large. Max size: ".toList ++
          (toString (52428800 / 1024 / 1024)).toList ++ "MB".toList⟩) ∧
    (Api.upload_pdf 52428800 "w2".toList false Api.emptyState
      ⟨"big.pdf".toList, some 62914560, [1]⟩).state = Api.emptyState ∧
    (Api.upload_pdf 52428800 "w2".toList false Api.emptyState
      ⟨"big.pdf".toList, some 62914560, [1]⟩).tasks = [] := by
  have h1 := C5_upload_validation 52428800 "w1".toList false Api.emptyState
    ⟨"notes.txt".toList, some 10, [1]⟩ (Or.inl (by decide))
  have h2 := C5_upload_validation 52428800 "w2".toList false Api.emptyState
    ⟨"big.pdf".toList, some 62914560, [1]⟩
    (Or.inr ⟨62914560, rfl, by decide⟩)
  exact ⟨h1.1, h1.2.1, h1.2.2, h2.1, h2.2.1, h2.2.2⟩

/-- Claim C6: section content over 300 characters is truncated to exactly
the first 300 characters followed by an ellipsis, a reference string over
100 characters to the first 100 plus an ellipsis, and at most 15 sections,
10 references, and 10 authors are ever returned, regardless of how many
elements the source XML holds. -/
theorem C6_truncation_caps (soup : Processor.Soup) (d : Processor.XmlDiv)
    (sec : Processor.DocSection) (b : Processor.BiblStruct) (r : Str) :
    ((Processor.get_sections soup).length ≤ 15 ∧
      (Processor.get_references soup).length ≤ 10 ∧
      (Processor.get_authors soup).length ≤ 10) ∧
    (Processor.sectionOfDiv d = some sec →
      300 < (Processor.divContent d).length →
      sec.content = (Processor.divContent d).take 300 ++ "...".toList) ∧
    (Processor.refOfBibl b = some r →
      100 < (Processor.rawRef b).length →
      r = (Processor.rawRef b).take 100 ++ "...".toList) := by
  refine ⟨⟨?_, ?_, ?_⟩, fun hd hlen => ?_, fun hb hlen => ?_⟩
  · calc (Processor.get_sections soup).length
        ≤ (soup.divs.take 15).length := List.length_filterMap_le _ _
      _ ≤ 15 := by rw [List.length_take]; omega
  · calc (Processor.get_references soup).length
        ≤ (soup.biblStructs.take 10).length := List.length_filterMap_le _ _
      _ ≤ 10 := by rw [List.length_take]; omega
  · calc (Processor.get_authors soup).length
        ≤ (soup.authors.take 10).length := List.length_filterMap_le _ _
      _ ≤ 10 := by rw [List.length_take]; omega
  · simp only [Processor.sectionOfDiv] at hd
    rcases hh : d.headText with _ | htext
    · simp only [hh] at hd
      cases hd
    · simp only [hh] at hd
      by_cases hstrip : pyStrip htext = []
      · rw [if_pos hstrip] at hd
        cases hd
      · rw [if_neg hstrip, if_pos hlen] at hd
        have hsec := Option.some.inj hd
        rw [← hsec]
  · simp only [Processor.refOfBibl] at hb
    by_cases hp : Processor.refParts b = []
    · rw [if_pos hp] at hb
      cases hb
    · rw [if_neg hp, if_pos hlen] at hb
      have href := Option.some.inj hb
      rw [← href]

/-- Witness for C6: a div whose content is 301 characters long produces a
section truncated to 300 plus the ellipsis, a biblStruct whose reference
string is 122 characters produces a reference truncated to 100 plus the
ellipsis, and the soup holding them is within all three caps. -/
theorem C6_truncation_caps_witness :
    (Processor.get_sections wSoup).length ≤ 15 ∧
    (Processor.get_references wSoup).length ≤ 10 ∧
    (Processor.get_authors wSoup).length ≤ 10 ∧
    wSec.content = (Processor.divContent wDiv).take 300 ++ "...".toList ∧
    wRef = (Processor.rawRef wBibl).take 100 ++ "...".toList := by
  have h := C6_truncation_caps wSoup wDiv wSec wBibl wRef
  exact ⟨h.1.1, h.1.2.1, h.1.2.2, h.2.1 (by decide) (by decide),
    h.2.2 (by decide) (by decide)⟩

/-- Claim C7 counterexample: for the abstract text `Abstract This paper`
the code strips the first 8 characters and then strips whitespace again,
so the result drops 9 characters, not exactly the first 8 as the claim
states. -/
theorem C7_counterexample :
    Processor.get_abstract soupAbsSpace = "This paper".toList ∧
    "Abstract This paper".toList.drop 8 = " This paper".toList ∧
    Processor.get_abstract soupAbsSpace ≠ "Abstract This paper".toList.drop 8 := by
  decide

/-- Claim C7 (amended): a document with no title element reports the
literal sentinel `Title not found`; one with no abstract element reports
`Abstract not found`; and when the whitespace-stripped abstract text begins
case-insensitively with `abstract`, the first 8 characters are removed and
the remainder is stripped of surrounding whitespace again. -/
theorem C7_sentinels (soup : Processor.Soup) (t : Str) :
    (soup.titleMain = none → soup.titleAny = none →
      Processor.get_title soup = "Title not found".toList) ∧
    (soup.abstractText = none →
      Processor.get_abstract soup = "Abstract not found".toList) ∧
    (soup.abstractText = some t →
      pyStartsWith (pyLower (pyStrip t)) "abstract".toList = true →
      Processor.get_abstract soup = pyStrip ((pyStrip t).drop 8)) := by
  refine ⟨fun h1 h2 => ?_, fun h => ?_, fun h hs => ?_⟩
  · simp [Processor.get_title, h1, h2, Option.orElse]
  · simp [Processor.get_abstract, h]
  · have hs2 : pyStartsWith (pyLower (pyStrip t))
        ['a', 'b', 's', 't', 'r', 'a', 'c', 't'] = true := hs
    simp [Processor.get_abstract, h, hs2]

/-- Witness for C7: an empty soup yields both sentinels, and an abstract
reading `  ABSTRACT: Results ` is rewritten to the stripped tail after its
first 8 characters. -/
theorem C7_sentinels_witness :
    Processor.get_title emptySoup = "Title not found".toList ∧
    Processor.get_abstract emptySoup = "Abstract not found".toList ∧
    Processor.get_abstract soupAbs =
      pyStrip ((pyStrip "  ABSTRACT: Results ".toList).drop 8) :=
  ⟨(C7_sentinels emptySoup []).1 rfl rfl,
    (C7_sentinels emptySoup []).2.1 rfl,
    (C7_sentinels soupAbs "  ABSTRACT: Results ".toList).2.2 rfl (by decide)⟩

/-- Claim C9: a document id present in the processing-status dict but
absent from the documents dict gets a 200 status response carrying only
the id and the status, is omitted from the document list entirely, and
gets 404 from delete — list and delete consult only the documents dict
while status consults the status dict. -/
theorem C9_maps_divergence (st : Api.ApiState) (doc_id : Str)
    (s : Api.DocumentStatus)
    (hs : lookupA st.processing_status doc_id = some s)
    (hd : lookupA st.documents doc_id = none) :
    Api.get_document_status st doc_id =
      .ok ⟨doc_id, s, none, none, none, none, none⟩ ∧
    (∀ info ∈ Api.list_documents st, info.document_id ≠ doc_id) ∧
    Api.delete_document st doc_id = .err ⟨404, "Document not found".toList⟩ := by
  refine ⟨?_, ?_, ?_⟩
  · simp [Api.get_document_status, hs, hd]
  · intro info hmem
    have h1 : info ∈ st.documents.map fun p => Api.docInfoOf st p.1 p.2 :=
      mem_sortDescBy _ _ _ hmem
    rcases List.mem_map.mp h1 with ⟨p, hp, rfl⟩
    have hfind : List.find? (fun q => decide (q.1 = doc_id)) st.documents = none := by
      rcases hff : List.find? (fun q => decide (q.1 = doc_id)) st.documents with _ | w
      · exact hff
      · exfalso
        simp only [lookupA, hff, Option.map_some'] at hd
        cases hd
    have hnone := List.find?_eq_none.mp hfind p hp
    have hne : p.1 ≠ doc_id := by
      intro hk
      rw [hk] at hnone
      simp at hnone
    have hid : (Api.docInfoOf st p.1 p.2).document_id = p.1 := by
      rw [Api.docInfoOf]
      split
      · rfl
      · rfl
    rw [hid]
    exact hne
  · simp [Api.delete_document, hd]

/-- Witness for C9: in a state with one finished document `da` and one
in-flight id `db`, the status endpoint answers for `db` with only id and
status, the list mentions only `da`, and delete on `db` is a 404. -/
theorem C9_maps_divergence_witness :
    Api.get_document_status stHalf "db".toList =
      .ok ⟨"db".toList, Api.DocumentStatus.processing, none, none, none,
        none, none⟩ ∧
    (Api.list_documents stHalf).all
      (fun info => decide (info.document_id ≠ "db".toList)) = true ∧
    Api.delete_document stHalf "db".toList =
      .err ⟨404, "Document not found".toList⟩ := by
  have h := C9_maps_divergence stHalf "db".toList Api.DocumentStatus.processing
    (by decide) (by decide)
  refine ⟨h.1, ?_, h.2.2⟩
  rw [List.all_eq_true]
  intro info hmem
  rw [decide_eq_true_eq]
  exact h.2.1 info hmem

/-- Claim C10: the size limit is enforced only for truthy size metadata —
an upload with absent or zero reported size passes the size check and is
accepted for processing (response ok, status entry recorded, background
task scheduled) regardless of how many bytes the file actually holds. -/
theorem C10_size_truthiness (m : Nat) (doc_id : Str) (st : Api.ApiState)
    (fn : Str) (content : List Nat) (sz : Option Nat)
    (hpdf : pyEndsWith fn ".pdf".toList = true)
    (hsz : sz = none ∨ sz = some 0) :
    (Api.upload_pdf m doc_id false st ⟨fn, sz, content⟩).response =
      .ok ⟨doc_id, fn, Api.DocumentStatus.processing,
        "Document uploaded successfully. Processing in background.".toList⟩ ∧
    lookupA (Api.upload_pdf m doc_id false st
        ⟨fn, sz, content⟩).state.processing_status doc_id =
      some Api.DocumentStatus.processing ∧
    (Api.upload_pdf m doc_id false st ⟨fn, sz, content⟩).tasks =
      [⟨doc_id, content, fn⟩] := by
  have hp2 : pyEndsWith fn ['.', 'p', 'd', 'f'] = true := hpdf
  have hex : Api.sizeExceeds sz m = false := by
    rcases hsz with h | h <;> rw [h] <;> rfl
  refine ⟨?_, ?_, ?_⟩ <;>
    simp [Api.upload_pdf, hp2, hex, lookupA_insertA]

/-- Witness for C10: a 20-byte upload with size metadata `None` against a
10-byte limit, and one with reported size 0, are both accepted, recorded
as processing, and scheduled. -/
theorem C10_size_truthiness_witness :
    (Api.upload_pdf 10 "w3".toList false Api.emptyState
      ⟨"a.pdf".toList, none, List.replicate 20 0⟩).response =
      .ok ⟨"w3".toList, "a.pdf".toList, Api.DocumentStatus.processing,
        "Document uploaded successfully. Processing in background.".toList⟩ ∧
    lookupA (Api.upload_pdf 10 "w3".toList false Api.emptyState
        ⟨"a.pdf".toList, none, List.replicate 20 0⟩).state.processing_status
      "w3".toList = some Api.DocumentStatus.processing ∧
    (Api.upload_pdf 10 "w3".toList false Api.emptyState
      ⟨"a.pdf".toList, none, List.replicate 20 0⟩).tasks =
      [⟨"w3".toList, List.replicate 20 0, "a.pdf".toList⟩] ∧
    (Api.upload_pdf 10 "w4".toList false Api.emptyState
      ⟨"a.pdf".toList, some 0, List.replicate 20 0⟩).response =
      .ok ⟨"w4".toList, "a.pdf".toList, Api.DocumentStatus.processing,
        "Document uploaded successfully. Processing in background.".toList⟩ := by
  have h3 := C10_size_truthiness 10 "w3".toList Api.emptyState "a.pdf".toList
    (List.replicate 20 0) none (by decide) (Or.inl rfl)
  have h4 := C10_size_truthiness 10 "w4".toList Api.emptyState "a.pdf".toList
    (List.replicate 20 0) (some 0) (by decide) (Or.inr rfl)
  exact ⟨h3.1, h3.2.1, h3.2.2, h4.1⟩

/-- Claim C1 counterexample: when writing `data.json` raises an I/O error
after the cache check, the returned dict has status `error` but the
authors, title, abstract, sections, references, keywords, and figures keys
are all absent — not present with empty or sentinel defaults as the claim
states. -/
theorem C1_counterexample :
    (Processor.process_pdf exMd5 "data/papers".toList envSaveFail ⟨[]⟩ [1]
        "paper.pdf".toList).result.status = some "error".toList ∧
    (Processor.process_pdf exMd5 "data/papers".toList envSaveFail ⟨[]⟩ [1]
        "paper.pdf".toList).result.authors = none ∧
    (Processor.process_pdf exMd5 "data/papers".toList envSaveFail ⟨[]⟩ [1]
        "paper.pdf".toList).result.title = none ∧
    (Processor.process_pdf exMd5 "data/papers".toList envSaveFail ⟨[]⟩ [1]
        "paper.pdf".toList).result.sections = none ∧
    (Processor.process_pdf exMd5 "data/papers".toList envSaveFail ⟨[]⟩ [1]
        "paper.pdf".toList).result.figures = none := by
  decide

/-- Claim C1 (amended): an exception that reaches the outer handler of
`process_pdf` after the cache check (a cache-read, directory-creation, or
save error) yields a dict holding exactly status `error`, the exception
message, the elapsed time, and the paper id — every other key is absent,
so callers cannot index into the list fields; and a GROBID network error
never reaches that handler: on an otherwise clean cache miss it yields a
status `success` dict whose text fields are empty strings and empty
lists. -/
theorem C1_error_dict_shape (md5 : List Nat → Str) (sd : Str)
    (env : Processor.PdfEnv) (store : Processor.Store) (content : List Nat)
    (fn : Str) :
    ((Processor.process_pdf md5 sd env store content fn).result.status =
        some "error".toList →
      (Processor.process_pdf md5 sd env store content fn).result =
        Processor.errorDict
          ((Processor.process_pdf md5 sd env store content fn).result.error.getD [])
          env.elapsed (Processor.generate_paper_id md5 content fn)) ∧
    (∀ msg, env.grobid = .requestError msg → env.mkdirError = none →
      env.saveError = none →
      lookupA store.cache (Processor.generate_paper_id md5 content fn) = none →
      (Processor.process_pdf md5 sd env store content fn).result.status =
          some "success".toList ∧
      (Processor.process_pdf md5 sd env store content fn).result.title =
          some [] ∧
      (Processor.process_pdf md5 sd env store content fn).result.authors =
          some [] ∧
      (Processor.process_pdf md5 sd env store content fn).result.sections =
          some [] ∧
      (Processor.process_pdf md5 sd env store content fn).result.references =
          some []) := by
  constructor
  · intro h
    rcases hl : lookupA store.cache
        (Processor.generate_paper_id md5 content fn) with _ | data
    · simp only [Processor.process_pdf, hl] at h ⊢
      rcases hm : env.mkdirError with _ | msg
      · simp only [hm] at h ⊢
        rcases hsv : env.saveError with _ | msg
        · simp only [hsv] at h
          exact absurd h (by decide)
        · simp only [hsv] at h ⊢
          rfl
      · simp only [hm] at h ⊢
        rfl
    · simp only [Processor.process_pdf, hl] at h ⊢
      rcases hcr : env.cacheReadError with _ | msg
      · simp only [hcr] at h
        exact absurd h (by decide)
      · simp only [hcr] at h ⊢
        rfl
  · intro msg hg hm hsv hl
    simp [Processor.process_pdf, hl, hm, hsv, hg,
      Processor.extract_text_content]

/-- Witness for C1: the save-failure run returns exactly the four-key error
dict, and the network-failure run returns a success dict with empty text
fields. -/
theorem C1_error_dict_shape_witness :
    (Processor.process_pdf exMd5 "data/papers".toList envSaveFail ⟨[]⟩ [1]
        "paper.pdf".toList).result =
      Processor.errorDict
        ((Processor.process_pdf exMd5 "data/papers".toList envSaveFail ⟨[]⟩ [1]
            "paper.pdf".toList).result.error.getD [])
        envSaveFail.elapsed
        (Processor.generate_paper_id exMd5 [1] "paper.pdf".toList) ∧
    (Processor.process_pdf exMd5 "data/papers".toList envNetFail ⟨[]⟩ [1]
        "paper.pdf".toList).result.status = some "success".toList ∧
    (Processor.process_pdf exMd5 "data/papers".toList envNetFail ⟨[]⟩ [1]
        "paper.pdf".toList).result.title = some [] ∧
    (Processor.process_pdf exMd5 "data/papers".toList envNetFail ⟨[]⟩ [1]
        "paper.pdf".toList).result.authors = some [] := by
  have h1 := (C1_error_dict_shape exMd5 "data/papers".toList envSaveFail ⟨[]⟩
    [1] "paper.pdf".toList).1 (by decide)
  have h2 := (C1_error_dict_shape exMd5 "data/papers".toList envNetFail ⟨[]⟩
    [1] "paper.pdf".toList).2 "connection timed out".toList rfl rfl rfl
    (by decide)
  exact ⟨h1, h2.1, h2.2.1, h2.2.2.1⟩

/-- Claim C3: starting from a store with no record for the paper id of the
given bytes and filename, an error-free first submission contacts GROBID
and a second submission of identical bytes and filename is served from the
cache: no second network call, status marked `loaded_from_cache`, and
title, authors, sections, and references identical to the first result —
whatever the second call's own network or I/O environment would have
done. -/
theorem C3_idempotent_caching (md5 : List Nat → Str) (sd : Str)
    (env1 env2 : Processor.PdfEnv) (store0 : Processor.Store)
    (content : List Nat) (fn : Str)
    (hfresh : lookupA store0.cache
      (Processor.generate_paper_id md5 content fn) = none)
    (hmk : env1.mkdirError = none) (hsv : env1.saveError = none)
    (hcr : env2.cacheReadError = none) :
    (Processor.process_pdf md5 sd env1 store0 content fn).grobidCalled = true ∧
    (Processor.process_pdf md5 sd env2
        (Processor.process_pdf md5 sd env1 store0 content fn).store
        content fn).grobidCalled = false ∧
    (Processor.process_pdf md5 sd env2
        (Processor.process_pdf md5 sd env1 store0 content fn).store
        content fn).result.status = some "loaded_from_cache".toList ∧
    (Processor.process_pdf md5 sd env2
        (Processor.process_pdf md5 sd env1 store0 content fn).store
        content fn).result.title =
      (Processor.process_pdf md5 sd env1 store0 content fn).result.title ∧
    (Processor.process_pdf md5 sd env2
        (Processor.process_pdf md5 sd env1 store0 content fn).store
        content fn).result.authors =
      (Processor.process_pdf md5 sd env1 store0 content fn).result.authors ∧
    (Processor.process_pdf md5 sd env2
        (Processor.process_pdf md5 sd env1 store0 content fn).store
        content fn).result.sections =
      (Processor.process_pdf md5 sd env1 store0 content fn).result.sections ∧
    (Processor.process_pdf md5 sd env2
        (Processor.process_pdf md5 sd env1 store0 content fn).store
        content fn).result.references =
      (Processor.process_pdf md5 sd env1 store0 content fn).result.references := by
  have hb : (Processor.process_pdf md5 sd env1 store0 content fn).store.cache =
      insertA store0.cache (Processor.generate_paper_id md5 content fn)
        (Processor.process_pdf md5 sd env1 store0 content fn).result := by
    simp only [Processor.process_pdf, hfresh, hmk, hsv]
  have hc : lookupA (Processor.process_pdf md5 sd env1 store0 content fn).store.cache
      (Processor.generate_paper_id md5 content fn) =
      some (Processor.process_pdf md5 sd env1 store0 content fn).result := by
    rw [hb]
    exact lookupA_insertA _ _ _
  have h1 : (Processor.process_pdf md5 sd env1 store0 content fn).grobidCalled = true := by
    simp only [Processor.process_pdf, hfresh, hmk, hsv]
  have h2 : Processor.process_pdf md5 sd env2
      (Processor.process_pdf md5 sd env1 store0 content fn).store content fn =
      ⟨{ (Processor.process_pdf md5 sd env1 store0 content fn).result with
          status := some "loaded_from_cache".toList },
        (Processor.process_pdf md5 sd env1 store0 content fn).store, false⟩ := by
    revert hc
    generalize Processor.process_pdf md5 sd env1 store0 content fn = o1
    intro hc
    simp only [Processor.process_pdf, hc, hcr]
  refine ⟨h1, ?_, ?_, ?_, ?_, ?_, ?_⟩ <;> rw [h2]

/-- Witness for C3: a clean first run over bytes `[1]` as `a.pdf`, followed
by a second run whose GROBID and save environments would both fail — the
second run never touches them. -/
theorem C3_idempotent_caching_witness :
    (Processor.process_pdf exMd5 "data/papers".toList envClean ⟨[]⟩ [1]
        "a.pdf".toList).grobidCalled = true ∧
    (Processor.process_pdf exMd5 "data/papers".toList envSecond
        (Processor.process_pdf exMd5 "data/papers".toList envClean ⟨[]⟩ [1]
          "a.pdf".toList).store [1] "a.pdf".toList).grobidCalled = false ∧
    (Processor.process_pdf exMd5 "data/papers".toList envSecond
        (Processor.process_pdf exMd5 "data/papers".toList envClean ⟨[]⟩ [1]
          "a.pdf".toList).store [1] "a.pdf".toList).result.status =
      some "loaded_from_cache".toList ∧
    (Processor.process_pdf exMd5 "data/papers".toList envSecond
        (Processor.process_pdf exMd5 "data/papers".toList envClean ⟨[]⟩ [1]
          "a.pdf".toList).store [1] "a.pdf".toList).result.title =
      (Processor.process_pdf exMd5 "data/papers".toList envClean ⟨[]⟩ [1]
        "a.pdf".toList).result.title := by
  have h := C3_idempotent_caching exMd5 "data/papers".toList envClean envSecond
    ⟨[]⟩ [1] "a.pdf".toList (by decide) rfl rfl rfl
  exact ⟨h.1, h.2.1, h.2.2.1, h.2.2.2.1⟩

/-- Claim C8: when the store already holds a record for the paper id of the
uploaded bytes, the background task records the document FAILED, because a
cache hit returns status `loaded_from_cache` and the task marks COMPLETED
only for status `success`. -/
theorem C8_cache_hit_failed (md5 : List Nat → Str) (sd : Str)
    (env : Processor.PdfEnv) (store : Processor.Store) (content : List Nat)
    (fn : Str) (st : Api.ApiState) (doc_id ut : Str)
    (cached : Processor.ResultDict)
    (hhit : lookupA store.cache
      (Processor.generate_paper_id md5 content fn) = some cached)
    (hcr : env.cacheReadError = none) :
    (Processor.process_pdf md5 sd env store content fn).result.status =
      some "loaded_from_cache".toList ∧
    lookupA (Api.process_document st doc_id content fn ut
        (.returned (Processor.process_pdf md5 sd env store content fn).result)).processing_status
      doc_id = some Api.DocumentStatus.failed ∧
    Api.DocumentStatus.failed ≠ Api.DocumentStatus.completed := by
  have hres : (Processor.process_pdf md5 sd env store content fn).result.status =
      some "loaded_from_cache".toList := by
    simp only [Processor.process_pdf, hhit, hcr]
  refine ⟨hres, ?_, by decide⟩
  simp only [Api.process_document, hres]
  rw [if_neg (by decide)]
  exact lookupA_insertA _ _ _

/-- Witness for C8: re-uploading the bytes `[1]` as `a.pdf` against a store
already holding their record ends with the document marked failed. -/
theorem C8_cache_hit_failed_witness :
    (Processor.process_pdf exMd5 "data/papers".toList envClean storeWithA [1]
        "a.pdf".toList).result.status = some "loaded_from_cache".toList ∧
    lookupA (Api.process_document Api.emptyState "dc".toList [1]
        "a.pdf".toList "2026-01-02T00:00:00".toList
        (.returned (Processor.process_pdf exMd5 "data/papers".toList envClean
          storeWithA [1] "a.pdf".toList).result)).processing_status
      "dc".toList = some Api.DocumentStatus.failed := by
  have h := C8_cache_hit_failed exMd5 "data/papers".toList envClean storeWithA
    [1] "a.pdf".toList Api.emptyState "dc".toList
    "2026-01-02T00:00:00".toList successDict (by decide) rfl
  exact ⟨h.1, h.2.1⟩

theorem find?_append_of_eq_none {α : Type} (p : α → Bool) (l1 l2 : List α)
    (h : l1.find? p = none) : (l1 ++ l2).find? p = l2.find? p := by
  induction l1 with
  | nil => rfl
  | cons a t ih =>
    rw [List.find?_cons] at h
    rw [List.cons_append, List.find?_cons]
    cases hp : p a
    · rw [hp] at h
      exact ih h
    · rw [hp] at h
      cases h

/-- Claim C4: indexing a P-page PDF under a paper id not yet present in the
collection creates exactly P page-points for that paper id — the point for
page i carrying id `{paper_id}_page_{i}`, the zero-based page number i, the
source path, and total_pages P — and get_document_info afterwards reports
a page count of P (the claim needs P to be at least 1, since an empty
collection scroll returns nothing). -/
theorem C4_index_roundtrip (coll : Colpali.Collection) (pdf_path paper_id : Str)
    (P : Nat) (hfresh : ∀ p ∈ coll.points, p.paper_id ≠ paper_id)
    (hP : 0 < P) :
    ((Colpali.index_pdf coll pdf_path paper_id P).1.points.filter
        fun p => decide (p.paper_id = paper_id)) =
      Colpali.indexPoints paper_id pdf_path P ∧
    (Colpali.indexPoints paper_id pdf_path P).length = P ∧
    (∀ i, i < P →
      Colpali.pointFor paper_id pdf_path P i ∈
        (Colpali.index_pdf coll pdf_path paper_id P).1.points) ∧
    (∀ pt ∈ Colpali.indexPoints paper_id pdf_path P,
      pt.page_number < P ∧ pt.total_pages = P ∧ pt.paper_id = paper_id ∧
      pt.pdf_path = pdf_path ∧
      pt.id = paper_id ++ "_page_".toList ++ (toString pt.page_number).toList) ∧
    Colpali.get_document_info (Colpali.index_pdf coll pdf_path paper_id P).1
      paper_id = some ⟨paper_id, pdf_path, P, true⟩ := by
  have hpoints : (Colpali.index_pdf coll pdf_path paper_id P).1.points =
      (coll.points.filter fun p =>
        !((Colpali.indexPoints paper_id pdf_path P).any
          fun q => decide (q.id = p.id))) ++
      Colpali.indexPoints paper_id pdf_path P := rfl
  have hmemIdx : ∀ pt ∈ Colpali.indexPoints paper_id pdf_path P,
      pt.paper_id = paper_id := by
    intro pt hpt
    rcases List.mem_map.mp hpt with ⟨i, hi, rfl⟩
    rfl
  have hsubA : ∀ a ∈ coll.points.filter (fun p =>
      !((Colpali.indexPoints paper_id pdf_path P).any
        fun q => decide (q.id = p.id))), a.paper_id ≠ paper_id :=
    fun a ha => hfresh a (List.mem_filter.mp ha).1
  refine ⟨?_, ?_, ?_, ?_, ?_⟩
  · rw [hpoints, List.filter_append]
    have hleft : ((coll.points.filter fun p =>
        !((Colpali.indexPoints paper_id pdf_path P).any
          fun q => decide (q.id = p.id))).filter
        fun p => decide (p.paper_id = paper_id)) = [] := by
      rw [List.filter_eq_nil_iff]
      intro a ha
      simp [hsubA a ha]
    have hright : ((Colpali.indexPoints paper_id pdf_path P).filter
        fun p => decide (p.paper_id = paper_id)) =
        Colpali.indexPoints paper_id pdf_path P := by
      rw [List.filter_eq_self]
      intro a ha
      simp [hmemIdx a ha]
    rw [hleft, hright, List.nil_append]
  · simp [Colpali.indexPoints]
  · intro i hi
    rw [hpoints]
    exact List.mem_append_right _
      (List.mem_map.mpr ⟨i, List.mem_range.mpr hi, rfl⟩)
  · intro pt hpt
    rcases List.mem_map.mp hpt with ⟨i, hi, rfl⟩
    exact ⟨List.mem_range.mp hi, rfl, rfl, rfl, rfl⟩
  · have hfa : List.find? (fun p => decide (p.paper_id = paper_id))
        (coll.points.filter fun p =>
          !((Colpali.indexPoints paper_id pdf_path P).any
            fun q => decide (q.id = p.id))) = none := by
      rw [List.find?_eq_none]
      intro a ha
      simp [hsubA a ha]
    cases P with
    | zero => omega
    | succ n =>
      have hfb : List.find? (fun p => decide (p.paper_id = paper_id))
          (Colpali.indexPoints paper_id pdf_path (n + 1)) =
          some (Colpali.pointFor paper_id pdf_path (n + 1) 0) := by
        rw [Colpali.indexPoints, List.range_succ_eq_map, List.map_cons,
          List.find?_cons]
        simp [Colpali.pointFor]
      simp only [Colpali.get_document_info, hpoints,
        find?_append_of_eq_none _ _ _ hfa, hfb, Colpali.pointFor]

/-- Witness for C4: indexing a fresh 2-page paper `w` into a collection
already holding a page of another paper. -/
theorem C4_index_roundtrip_witness :
    ((Colpali.index_pdf collOther "data/w.pdf".toList "w".toList 2).1.points.filter
        fun p => decide (p.paper_id = "w".toList)) =
      Colpali.indexPoints "w".toList "data/w.pdf".toList 2 ∧
    (Colpali.indexPoints "w".toList "data/w.pdf".toList 2).length = 2 ∧
    Colpali.pointFor "w".toList "data/w.pdf".toList 2 0 ∈
      (Colpali.index_pdf collOther "data/w.pdf".toList "w".toList 2).1.points ∧
    Colpali.pointFor "w".toList "data/w.pdf".toList 2 1 ∈
      (Colpali.index_pdf collOther "data/w.pdf".toList "w".toList 2).1.points ∧
    Colpali.get_document_info
      (Colpali.index_pdf collOther "data/w.pdf".toList "w".toList 2).1
      "w".toList = some ⟨"w".toList, "data/w.pdf".toList, 2, true⟩ := by
  have h := C4_index_roundtrip collOther "data/w.pdf".toList "w".toList 2
    (by decide) (by decide)
  exact ⟨h.1, h.2.1, h.2.2.1 0 (by decide), h.2.2.1 1 (by decide), h.2.2.2.2⟩

/-- Claim C2 counterexample: in the four-document run (two success results,
one raised extraction, one task never run) the health endpoint reports
total_documents = 3, not the claimed 4 — the in-flight document has a
processing_status entry but no documents entry, and total_documents counts
the documents dict. -/
theorem C2_counterexample :
    Api.health_check c2state =
      { total_documents := 3, processing_documents := 1,
        completed_documents := 2, failed_documents := 1 } ∧
    (Api.health_check c2state).total_documents ≠ 4 := by
  decide

/-- Claim C2 (amended): with two documents completed, one failed, and one
accepted upload whose background task has not run, the health endpoint
reports total_documents = 3 (only documents whose background task has
written a record are counted), processing_documents = 1,
completed_documents = 2, failed_documents = 1. -/
theorem C2_health_aggregation (m : Nat) (f1 f2 f3 f4 : Api.UploadFile)
    (r1 r2 : Processor.ResultDict) (e3 ut1 ut2 ut3 : Str)
    (hp1 : pyEndsWith f1.filename ".pdf".toList = true)
    (hp2 : pyEndsWith f2.filename ".pdf".toList = true)
    (hp3 : pyEndsWith f3.filename ".pdf".toList = true)
    (hp4 : pyEndsWith f4.filename ".pdf".toList = true)
    (hs1 : Api.sizeExceeds f1.size m = false)
    (hs2 : Api.sizeExceeds f2.size m = false)
    (hs3 : Api.sizeExceeds f3.size m = false)
    (hs4 : Api.sizeExceeds f4.size m = false)
    (hr1 : r1.status = some "success".toList)
    (hr2 : r2.status = some "success".toList) :
    Api.health_check
      (Api.process_document
        (Api.process_document
          (Api.process_document
            (Api.upload_pdf m "d4".toList false
              (Api.upload_pdf m "d3".toList false
                (Api.upload_pdf m "d2".toList false
                  (Api.upload_pdf m "d1".toList false Api.emptyState f1).state
                  f2).state
                f3).state
              f4).state
            "d1".toList f1.content f1.filename ut1 (.returned r1))
          "d2".toList f2.content f2.filename ut2 (.returned r2))
        "d3".toList f3.content f3.filename ut3 (.raised e3)) =
      { total_documents := 3, processing_documents := 1,
        completed_documents := 2, failed_documents := 1 } := by
  rw [upload_accepted_state m "d1".toList Api.emptyState f1 hp1 hs1,
    upload_accepted_state m "d2".toList _ f2 hp2 hs2,
    upload_accepted_state m "d3".toList _ f3 hp3 hs3,
    upload_accepted_state m "d4".toList _ f4 hp4 hs4]
  simp only [Api.process_document, hr1, hr2, if_true]
  rfl

/-- Witness for C2: the run of the amended theorem at concrete files and
results. -/
theorem C2_health_aggregation_witness :
    Api.health_check
      (Api.process_document
        (Api.process_document
          (Api.process_document
            (Api.upload_pdf 52428800 "d4".toList false
              (Api.upload_pdf 52428800 "d3".toList false
                (Api.upload_pdf 52428800 "d2".toList false
                  (Api.upload_pdf 52428800 "d1".toList false Api.emptyState
                    ⟨"a.pdf".toList, some 10, [1]⟩).state
                  ⟨"b.pdf".toList, some 10, [2]⟩).state
                ⟨"c.pdf".toList, some 10, [3]⟩).state
              ⟨"d.pdf".toList, some 10, [4]⟩).state
            "d1".toList [1] "a.pdf".toList "2026-01-01T00:00:01".toList
            (.returned successDict))
          "d2".toList [2] "b.pdf".toList "2026-01-01T00:00:02".toList
          (.returned successDict))
        "d3".toList [3] "c.pdf".toList "2026-01-01T00:00:03".toList
        (.raised "GROBID HTTP 500".toList)) =
      { total_documents := 3, processing_documents := 1,
        completed_documents := 2, failed_documents := 1 } :=
  C2_health_aggregation 52428800 ⟨"a.pdf".toList, some 10, [1]⟩
    ⟨"b.pdf".toList, some 10, [2]⟩ ⟨"c.pdf".toList, some 10, [3]⟩
    ⟨"d.pdf".toList, some 10, [4]⟩ successDict successDict
    "GROBID HTTP 500".toList "2026-01-01T00:00:01".toList
    "2026-01-01T00:00:02".toList "2026-01-01T00:00:03".toList
    (by decide) (by decide) (by decide) (by decide) (by decide) (by decide)
    (by decide) (by decide) rfl rfl

end Spec2Proof

